import Mathlib

/-!
Verification of the search orchestration core of the
Automated-AI-Web-Researcher repository: the provider fallback and
normalization layer (`search_manager.py`) and the iterative retrieval loop
(`Self_Improving_Search.py`), shallowly embedded in Lean 4.

Python values that flow through these functions (JSON-like payloads from
search backends) are embedded as the inductive type `PyVal`; Python
exceptions are embedded as `Except PyErr`; external collaborators (the
provider HTTP clients, the text-generation service, the content fetcher and
the robots-policy checker) are parameters of the embedded functions.
-/

/-- A Python exception class, as far as the embedded code distinguishes them. -/
inductive PyErr where
  | typeError
  | valueError
  | attributeError
  | keyError
  | indexError
deriving DecidableEq, Repr

/-- A Python value of the shapes that flow through the search layer:
`None`, booleans, numbers (ints and floats collapsed into `ℚ`), strings,
lists, and string-keyed dicts (association lists in insertion order). -/
inductive PyVal where
  | none
  | bool (b : Bool)
  | num (q : ℚ)
  | str (s : String)
  | list (xs : List PyVal)
  | dict (kvs : List (String × PyVal))
deriving Repr

mutual

/-- Decidable equality on `PyVal` (the `deriving` handler does not support
this nested inductive, so the instance is spelled out). -/
def pyValDecEq : (a b : PyVal) → Decidable (a = b)
  | .none, .none => .isTrue rfl
  | .none, .bool _ => .isFalse (fun h => PyVal.noConfusion h)
  | .none, .num _ => .isFalse (fun h => PyVal.noConfusion h)
  | .none, .str _ => .isFalse (fun h => PyVal.noConfusion h)
  | .none, .list _ => .isFalse (fun h => PyVal.noConfusion h)
  | .none, .dict _ => .isFalse (fun h => PyVal.noConfusion h)
  | .bool _, .none => .isFalse (fun h => PyVal.noConfusion h)
  | .bool x, .bool y =>
    if h : x = y then .isTrue (by rw [h]) else .isFalse (by intro c; cases c; exact h rfl)
  | .bool _, .num _ => .isFalse (fun h => PyVal.noConfusion h)
  | .bool _, .str _ => .isFalse (fun h => PyVal.noConfusion h)
  | .bool _, .list _ => .isFalse (fun h => PyVal.noConfusion h)
  | .bool _, .dict _ => .isFalse (fun h => PyVal.noConfusion h)
  | .num _, .none => .isFalse (fun h => PyVal.noConfusion h)
  | .num _, .bool _ => .isFalse (fun h => PyVal.noConfusion h)
  | .num x, .num y =>
    if h : x = y then .isTrue (by rw [h]) else .isFalse (by intro c; cases c; exact h rfl)
  | .num _, .str _ => .isFalse (fun h => PyVal.noConfusion h)
  | .num _, .list _ => .isFalse (fun h => PyVal.noConfusion h)
  | .num _, .dict _ => .isFalse (fun h => PyVal.noConfusion h)
  | .str _, .none => .isFalse (fun h => PyVal.noConfusion h)
  | .str _, .bool _ => .isFalse (fun h => PyVal.noConfusion h)
  | .str _, .num _ => .isFalse (fun h => PyVal.noConfusion h)
  | .str x, .str y =>
    if h : x = y then .isTrue (by rw [h]) else .isFalse (by intro c; cases c; exact h rfl)
  | .str _, .list _ => .isFalse (fun h => PyVal.noConfusion h)
  | .str _, .dict _ => .isFalse (fun h => PyVal.noConfusion h)
  | .list _, .none => .isFalse (fun h => PyVal.noConfusion h)
  | .list _, .bool _ => .isFalse (fun h => PyVal.noConfusion h)
  | .list _, .num _ => .isFalse (fun h => PyVal.noConfusion h)
  | .list _, .str _ => .isFalse (fun h => PyVal.noConfusion h)
  | .list xs, .list ys =>
    match pyListDecEq xs ys with
    | .isTrue h => .isTrue (by rw [h])
    | .isFalse h => .isFalse (by intro c; cases c; exact h rfl)
  | .list _, .dict _ => .isFalse (fun h => PyVal.noConfusion h)
  | .dict _, .none => .isFalse (fun h => PyVal.noConfusion h)
  | .dict _, .bool _ => .isFalse (fun h => PyVal.noConfusion h)
  | .dict _, .num _ => .isFalse (fun h => PyVal.noConfusion h)
  | .dict _, .str _ => .isFalse (fun h => PyVal.noConfusion h)
  | .dict _, .list _ => .isFalse (fun h => PyVal.noConfusion h)
  | .dict xs, .dict ys =>
    match pyKVDecEq xs ys with
    | .isTrue h => .isTrue (by rw [h])
    | .isFalse h => .isFalse (by intro c; cases c; exact h rfl)

/-- Decidable equality on lists of `PyVal`. -/
def pyListDecEq : (a b : List PyVal) → Decidable (a = b)
  | [], [] => .isTrue rfl
  | [], _ :: _ => .isFalse (fun h => List.noConfusion h)
  | _ :: _, [] => .isFalse (fun h => List.noConfusion h)
  | x :: xs, y :: ys =>
    match pyValDecEq x y with
    | .isFalse h => .isFalse (by intro c; cases c; exact h rfl)
    | .isTrue h1 =>
      match pyListDecEq xs ys with
      | .isTrue h2 => .isTrue (by rw [h1, h2])
      | .isFalse h2 => .isFalse (by intro c; cases c; exact h2 rfl)

/-- Decidable equality on string-keyed association lists of `PyVal`. -/
def pyKVDecEq : (a b : List (String × PyVal)) → Decidable (a = b)
  | [], [] => .isTrue rfl
  | [], _ :: _ => .isFalse (fun h => List.noConfusion h)
  | _ :: _, [] => .isFalse (fun h => List.noConfusion h)
  | (k, v) :: xs, (k2, v2) :: ys =>
    if hk : k = k2 then
      match pyValDecEq v v2 with
      | .isFalse h => .isFalse (by intro c; cases c; exact h rfl)
      | .isTrue h1 =>
        match pyKVDecEq xs ys with
        | .isTrue h2 => .isTrue (by rw [hk, h1, h2])
        | .isFalse h2 => .isFalse (by intro c; cases c; exact h2 rfl)
    else .isFalse (by intro c; cases c; exact hk rfl)

end

instance : DecidableEq PyVal := pyValDecEq

instance {ε α : Type} [DecidableEq ε] [DecidableEq α] : DecidableEq (Except ε α) :=
  fun a b =>
    match a, b with
    | .ok x, .ok y =>
      if h : x = y then .isTrue (by rw [h]) else .isFalse (by intro c; cases c; exact h rfl)
    | .error x, .error y =>
      if h : x = y then .isTrue (by rw [h]) else .isFalse (by intro c; cases c; exact h rfl)
    | .ok _, .error _ => .isFalse (fun h => Except.noConfusion h)
    | .error _, .ok _ => .isFalse (fun h => Except.noConfusion h)

namespace PyVal

/-- Dict lookup (first binding wins, as in a Python dict where keys are unique). -/
def dGet : List (String × PyVal) → String → Option PyVal
  | [], _ => Option.none
  | (k, v) :: rest, key => if k = key then Option.some v else dGet rest key

/-- Python truthiness (`bool(v)`). -/
def pyTruthy : PyVal → Bool
  | .none => false
  | .bool b => b
  | .num q => if q = 0 then false else true
  | .str s => if s = "" then false else true
  | .list [] => false
  | .list (_ :: _) => true
  | .dict [] => false
  | .dict (_ :: _) => true

/-- `v.get(key, default)`: raises `AttributeError` unless `v` is a dict. -/
def pyGet (v : PyVal) (key : String) (dflt : PyVal) : Except PyErr PyVal :=
  match v with
  | .dict kvs => .ok ((dGet kvs key).getD dflt)
  | _ => .error .attributeError

/-- Total variant of `v.get(key, default)` for dicts (used in specifications). -/
def dGetD (v : PyVal) (key : String) (dflt : PyVal) : PyVal :=
  match v with
  | .dict kvs => (dGet kvs key).getD dflt
  | _ => dflt

/-- Python slicing `v[:n]`: defined on strings (by code point) and lists,
`TypeError` otherwise. -/
def pySliceTake (v : PyVal) (n : Nat) : Except PyErr PyVal :=
  match v with
  | .str s => .ok (.str (String.mk (s.data.take n)))
  | .list xs => .ok (.list (xs.take n))
  | _ => .error .typeError

/-- Python `float(v)` on the value shapes we model: numbers and booleans
convert, numeric strings parse (`ValueError` otherwise), everything else is
a `TypeError`. -/
def pyFloat (v : PyVal) : Except PyErr ℚ :=
  match v with
  | .num q => .ok q
  | .bool b => .ok (if b then 1 else 0)
  | .str s =>
    match parseDecimal s.trim with
    | Option.some q => .ok q
    | Option.none => .error .valueError
  | _ => .error .typeError
where
  /-- Parse an optionally signed decimal literal. -/
  parseDecimal (s : String) : Option ℚ :=
    let core (t : List Char) : Option ℚ :=
      let intPart := t.takeWhile Char.isDigit
      let rest := t.dropWhile Char.isDigit
      match rest with
      | [] => if intPart = [] then Option.none else
          Option.some ((intPart.foldl (fun a c => a * 10 + (c.toNat - 48)) 0 : ℕ) : ℚ)
      | '.' :: frac =>
        if frac.all Char.isDigit ∧ (intPart ≠ [] ∨ frac ≠ []) then
          let ip : ℕ := intPart.foldl (fun a c => a * 10 + (c.toNat - 48)) 0
          let fp : ℕ := frac.foldl (fun a c => a * 10 + (c.toNat - 48)) 0
          Option.some ((ip : ℚ) + (fp : ℚ) / ((10 : ℚ) ^ frac.length))
        else Option.none
      | _ => Option.none
    match s.data with
    | '-' :: t => (core t).map (fun q => -q)
    | '+' :: t => core t
    | t => core t

/-- Python iteration `for x in v`: lists yield elements, strings yield
one-character strings, dicts yield their keys; other values raise `TypeError`. -/
def pyIterate (v : PyVal) : Except PyErr (List PyVal) :=
  match v with
  | .list xs => .ok xs
  | .str s => .ok (s.data.map (fun c => .str (String.mk [c])))
  | .dict kvs => .ok (kvs.map (fun kv => .str kv.1))
  | _ => .error .typeError

/-- Python subscript `v[i]`: dict lookup by string key (`KeyError` when
absent), list indexing by integer (negative indices count from the end,
`IndexError` out of range, `TypeError` for non-integer indices). -/
def pySubscript (v : PyVal) (idx : PyVal) : Except PyErr PyVal :=
  match v, idx with
  | .dict kvs, .str k =>
    match dGet kvs k with
    | Option.some x => .ok x
    | Option.none => .error .keyError
  | .dict _, _ => .error .keyError
  | .list xs, .num q =>
    if q.den = 1 then
      let i : Int := q.num
      let j : Int := if i < 0 then (xs.length : Int) + i else i
      if h : 0 ≤ j ∧ j.toNat < xs.length then .ok (xs.get ⟨j.toNat, h.2⟩)
      else .error .indexError
    else .error .typeError
  | .list _, _ => .error .typeError
  | _, _ => .error .typeError

/-- Python `str(v)`, simplified for nested containers; the rendered text is
only ever interpolated into prompts consumed by the external generation
service, which the development models as an oracle. -/
def pyStrOf : PyVal → String
  | .none => "None"
  | .bool b => if b then "True" else "False"
  | .num q => toString q.num ++ (if q.den = 1 then "" else "/" ++ toString q.den)
  | .str s => s
  | .list _ => "[...]"
  | .dict _ => "..."

end PyVal

open PyVal

/-! ## Configuration (`system_config.py`)

Only the configuration entries the verified code reads. -/

/-- `SEARCH_CONFIG["default_provider"]`. -/
def SEARCH_CONFIG_default_provider : String := "duckduckgo"

/-- `SEARCH_CONFIG["fallback_order"]`. -/
def SEARCH_CONFIG_fallback_order : List String :=
  ["exa", "bing", "brave", "tavily", "duckduckgo"]

/-- `SEARCH_CONFIG["provider_settings"][p]["max_results"]`. -/
def SEARCH_CONFIG_max_results (p : String) : Nat :=
  if p = "tavily" then 5 else 10

/-- `RESEARCH_CONFIG["rate_limiting"]["requests_per_minute"]`. -/
def RESEARCH_CONFIG_requests_per_minute : Nat := 60

/-- `RESEARCH_CONFIG["rate_limiting"]["cooldown_period"]` (seconds). -/
def RESEARCH_CONFIG_cooldown_period : ℚ := 60

/-- `RESEARCH_CONFIG["search"]["max_results_per_search"]`. -/
def RESEARCH_CONFIG_max_results_per_search : Nat := 10

/-- `RESEARCH_CONFIG["search"]["min_relevance_score"]`. -/
def RESEARCH_CONFIG_min_relevance_score : ℚ := 0.6

/-! ## Result normalization (`SearchManager._normalize_results`)

`search_manager.py` lines 50-144.  Each provider variant maps raw result
items through a fixed field table; the tables below transcribe the five
list comprehensions of the source. -/

/-- The field-mapping table of one provider variant: where the canonical
`title`/`url`/`content` fields are read from, where the score comes from
(`Option.none` meaning the constant `1.0`, as for Bing and DuckDuckGo),
and whether `published_date` is passed through or pinned to `None`. -/
structure FieldMap where
  titleKey : String
  urlKey : String
  contentKey : String
  scoreKey : Option String
  datePassthrough : Bool
deriving DecidableEq, Repr

/-- Tavily news articles: `title`/`url`/`content`/`score`/`published_date`. -/
def tavilyMap : FieldMap := ⟨"title", "url", "content", Option.some "score", true⟩

/-- Brave: content from `description`, score from `relevance_score`. -/
def braveMap : FieldMap := ⟨"title", "url", "description", Option.some "relevance_score", true⟩

/-- Bing: constant score 1.0, `published_date` pinned to `None`. -/
def bingMap : FieldMap := ⟨"title", "url", "content", Option.none, false⟩

/-- Exa: content from `text`, score from `relevance_score`. -/
def exaMap : FieldMap := ⟨"title", "url", "text", Option.some "relevance_score", true⟩

/-- DuckDuckGo: url from `link`, content from `snippet`, constant score 1.0. -/
def ddgMap : FieldMap := ⟨"title", "link", "snippet", Option.none, false⟩

/-- The five field-mapping tables of `_normalize_results`. -/
def providerFieldMaps : List FieldMap := [tavilyMap, braveMap, bingMap, exaMap, ddgMap]

/-- One raw result item mapped into the canonical item shape, following the
dict-literal of the source comprehensions: `r.get` calls evaluate left to
right, the content field is truncated with `[:500]`, the score is
`float(r.get(scoreKey, 0.0))` or the constant `1.0`. -/
def mapProviderItem (fm : FieldMap) (r : PyVal) : Except PyErr PyVal := do
  let title ← pyGet r fm.titleKey (.str "")
  let url ← pyGet r fm.urlKey (.str "")
  let rawContent ← pyGet r fm.contentKey (.str "")
  let content ← pySliceTake rawContent 500
  let score ← match fm.scoreKey with
    | Option.some k => do
        let sv ← pyGet r k (.num 0)
        let q ← pyFloat sv
        pure q
    | Option.none => pure (1 : ℚ)
  let pd ← if fm.datePassthrough then pyGet r "published_date" .none else pure PyVal.none
  pure (.dict [("title", title), ("url", url), ("content", content),
               ("score", .num score), ("published_date", pd)])

/-- The list comprehension over raw items: items are mapped in order and the
first exception propagates. -/
def mapItems (fm : FieldMap) : List PyVal → Except PyErr (List PyVal)
  | [] => .ok []
  | r :: rs => do
    let m ← mapProviderItem fm r
    let ms ← mapItems fm rs
    .ok (m :: ms)

/-- The failure response built for a raw payload carrying an `error` field. -/
def errorResp (e : PyVal) (provider : String) : PyVal :=
  .dict [("success", .bool false), ("error", e), ("results", .list []),
         ("provider", .str provider)]

/-- The failure response for a non-dict raw payload. -/
def invalidFormatResp (provider : String) : PyVal :=
  errorResp (.str ("Invalid results format from " ++ provider)) provider

/-- The success response shell: `success`/`error`/`provider`/`results` are
inserted first, a raw `answer` field (when present) is appended after them,
matching the source's dict insertion order. -/
def successResp (provider : String) (rs : PyVal) (answer : Option PyVal) : PyVal :=
  .dict ([("success", .bool true), ("error", PyVal.none), ("provider", .str provider),
          ("results", rs)] ++
         (match answer with
          | Option.some a => [("answer", a)]
          | Option.none => []))

/-- The provider dispatch of `_normalize_results` (lines 96-142): the value
assigned to `normalized['results']`, or the exception the branch raises.
For `duckduckgo` the source reassigns `results = []` whenever the payload is
not a list, which is always the case on this branch (the payload is a dict
here), so the normalized results are always empty. -/
def normalizeBranch (provider : String) (kvs : List (String × PyVal)) :
    Except PyErr PyVal :=
  if provider = "tavily" then
    match dGet kvs "articles" with
    | Option.some arts => do
        let items ← pyIterate arts
        let ms ← mapItems tavilyMap items
        .ok (.list ms)
    | Option.none => .ok ((dGet kvs "results").getD (.list []))
  else if provider = "brave" then do
    let items ← pyIterate ((dGet kvs "results").getD (.list []))
    let ms ← mapItems braveMap items
    .ok (.list ms)
  else if provider = "bing" then do
    let items ← pyIterate ((dGet kvs "results").getD (.list []))
    let ms ← mapItems bingMap items
    .ok (.list ms)
  else if provider = "exa" then do
    let items ← pyIterate ((dGet kvs "results").getD (.list []))
    let ms ← mapItems exaMap items
    .ok (.list ms)
  else if provider = "duckduckgo" then
    .ok (.list [])
  else
    .ok (.list [])

/-- `SearchManager._normalize_results(results, provider)` (lines 50-144):
non-dict payloads and payloads with an `error` key normalize to failure
responses; otherwise the provider-specific branch rebuilds the results list
and a raw `answer` field is carried over. -/
def normalize_results (results : PyVal) (provider : String) : Except PyErr PyVal :=
  match results with
  | .dict kvs =>
    match dGet kvs "error" with
    | Option.some e => .ok (errorResp e provider)
    | Option.none =>
      match normalizeBranch provider kvs with
      | .error err => .error err
      | .ok rs => .ok (successResp provider rs (dGet kvs "answer"))
  | _ => .ok (invalidFormatResp provider)

/-- The provider ids `_normalize_results` dispatches on. -/
def supportedProviders : List String :=
  ["tavily", "brave", "bing", "exa", "duckduckgo"]

/-! ## Observation helpers over normalized responses -/

/-- Truthiness of `response['success']` (the branch test of
`SearchManager.search`; `_normalize_results` always sets the key). -/
def getSuccess (v : PyVal) : Bool :=
  match v with
  | .dict kvs =>
    match dGet kvs "success" with
    | Option.some s => pyTruthy s
    | Option.none => false
  | _ => false

/-- The `results` field of a response, when it is a dict holding a list. -/
def resultsListOf (v : PyVal) : Option (List PyVal) :=
  match v with
  | .dict kvs =>
    match dGet kvs "results" with
    | Option.some (.list xs) => Option.some xs
    | _ => Option.none
  | _ => Option.none

/-- Length of the normalized results list of a non-raising normalization. -/
def resultsLenE (e : Except PyErr PyVal) : Option Nat :=
  match e with
  | .ok v => (resultsListOf v).map List.length
  | .error _ => Option.none

/-- Whether a non-raising normalization returned a success response. -/
def isOkSuccess (e : Except PyErr PyVal) : Bool :=
  match e with
  | .ok v => getSuccess v
  | .error _ => false

/-- The `score` field of a canonical result item, when numeric. -/
def scoreOfItem (r : PyVal) : Option ℚ :=
  match r with
  | .dict kvs =>
    match dGet kvs "score" with
    | Option.some (.num q) => Option.some q
    | _ => Option.none
  | _ => Option.none

/-- The numeric `score` of a result item, when any, is nonnegative. -/
def itemScoreNonnegB (r : PyVal) : Bool :=
  match scoreOfItem r with
  | Option.some q => decide (0 ≤ q)
  | Option.none => true

/-- Every numeric `score` in the results of a non-raising normalization is
nonnegative. -/
def scoresNonnegE (e : Except PyErr PyVal) : Bool :=
  match e with
  | .ok v =>
    match resultsListOf v with
    | Option.some xs => xs.all itemScoreNonnegB
    | Option.none => false
  | .error _ => false

/-- The score of the first normalized result, when defined. -/
def firstScoreE (e : Except PyErr PyVal) : Option ℚ :=
  match e with
  | .ok v =>
    match resultsListOf v with
    | Option.some (r :: _) => scoreOfItem r
    | _ => Option.none
  | .error _ => Option.none

/-! ## Provider fallback (`SearchManager.search`)

`search_manager.py` lines 146-211.  A provider's one `search` call together
with its normalization is abstracted by `behave : String → Except PyErr
PyVal` giving the raw payload (or the exception) produced by provider
`p.search(query, ...)`; the query and merged keyword options do not affect
the control flow being verified, so they are absorbed into `behave`. -/

/-- The mutable state of a `SearchManager`: the configured providers (the
keys of `self.providers`), the sticky `current_provider`, and the
configured fallback order. -/
structure SMState where
  providers : List String
  current_provider : String
  fallback_order : List String
deriving DecidableEq, Repr

/-- One guarded provider attempt (the body of either `try` block of
`SearchManager.search`): call the provider, normalize the raw payload, and
yield the normalized response when it reports success; every exception from
the provider call or the normalization is caught, and a non-success
normalized response is only logged — both leave the attempt fruitless. -/
def tryProvider (behave : String → Except PyErr PyVal) (p : String) : Option PyVal :=
  match behave p with
  | .error _ => Option.none
  | .ok raw =>
    match normalize_results raw p with
    | .error _ => Option.none
    | .ok norm => if getSuccess norm then Option.some norm else Option.none

/-- The fallback iteration of `SearchManager.search` (lines 174-203):
walk the fallback order, skipping unconfigured or already-tried providers;
the first successful attempt yields the normalized response and the name of
the provider that produced it. -/
def searchFallback (behave : String → Except PyErr PyVal) (providers : List String)
    (tried : List String) : List String → Option (PyVal × String)
  | [] => Option.none
  | p :: rest =>
    if p ∈ providers ∧ p ∉ tried then
      match tryProvider behave p with
      | Option.some norm => Option.some (norm, p)
      | Option.none => searchFallback behave providers (p :: tried) rest
    else searchFallback behave providers tried rest

/-- The failure response returned when every provider is exhausted
(lines 206-211). -/
def allProvidersFailedResp : PyVal :=
  .dict [("success", .bool false), ("error", .str "All search providers failed"),
         ("results", .list []), ("provider", PyVal.none)]

namespace SearchManager

/-- `SearchManager.search` (lines 146-211): try the sticky
`current_provider` first and return its normalized response on success with
the state unchanged; otherwise walk the fallback order, reassigning
`current_provider` only when a fallback attempt succeeds; when every
configured provider is exhausted, return the fixed failure response.
Exceptions raised by provider calls or normalization are caught inside the
attempts (`tryProvider`), so the function is total. -/
def search (st : SMState) (behave : String → Except PyErr PyVal) : PyVal × SMState :=
  if st.current_provider ∈ st.providers then
    match tryProvider behave st.current_provider with
    | Option.some norm => (norm, st)
    | Option.none =>
      match searchFallback behave st.providers [st.current_provider] st.fallback_order with
      | Option.some (norm, p) => (norm, { st with current_provider := p })
      | Option.none => (allProvidersFailedResp, st)
  else
    match searchFallback behave st.providers [] st.fallback_order with
    | Option.some (norm, p) => (norm, { st with current_provider := p })
    | Option.none => (allProvidersFailedResp, st)

end SearchManager

/-- When every configured provider's attempt is fruitless, the fallback walk
finds nothing, whatever providers were already tried. -/
theorem searchFallback_none (behave : String → Except PyErr PyVal)
    (providers : List String)
    (h : ∀ p ∈ providers, tryProvider behave p = Option.none) :
    ∀ (order tried : List String),
      searchFallback behave providers tried order = Option.none := by
  intro order
  induction order with
  | nil => intro tried; rfl
  | cons p rest ih =>
    intro tried
    unfold searchFallback
    by_cases hp : p ∈ providers ∧ p ∉ tried
    · rw [if_pos hp, h p hp.1]
      exact ih (p :: tried)
    · rw [if_neg hp]
      exact ih tried

/-- A successful fallback walk reports exactly the provider whose guarded
attempt produced the returned normalized response. -/
theorem searchFallback_some (behave : String → Except PyErr PyVal)
    (providers : List String) :
    ∀ (order tried : List String) (norm : PyVal) (p : String),
      searchFallback behave providers tried order = Option.some (norm, p) →
      tryProvider behave p = Option.some norm := by
  intro order
  induction order with
  | nil => intro tried norm p h; exact Option.noConfusion h
  | cons q rest ih =>
    intro tried norm p h
    unfold searchFallback at h
    by_cases hq : q ∈ providers ∧ q ∉ tried
    · rw [if_pos hq] at h
      cases htq : tryProvider behave q with
      | some n =>
        rw [htq] at h
        obtain ⟨rfl, rfl⟩ : n = norm ∧ q = p := by
          have := Option.some.inj h
          exact ⟨congrArg Prod.fst this, congrArg Prod.snd this⟩
        exact htq
      | none =>
        rw [htq] at h
        exact ih (q :: tried) norm p h
    · rw [if_neg hq] at h
      exact ih tried norm p h

/-- A guarded provider attempt reports a response only when that response's
`success` flag is truthy. -/
theorem tryProvider_some_success (behave : String → Except PyErr PyVal)
    (p : String) (norm : PyVal) (h : tryProvider behave p = Option.some norm) :
    getSuccess norm = true := by
  unfold tryProvider at h
  cases hb : behave p with
  | error e => simp only [hb] at h; exact Option.noConfusion h
  | ok raw =>
    simp only [hb] at h
    cases hn : normalize_results raw p with
    | error e => simp only [hn] at h; exact Option.noConfusion h
    | ok n =>
      simp only [hn] at h
      by_cases hs : getSuccess n = true
      · rw [if_pos hs] at h
        cases Option.some.inj h
        exact hs
      · rw [if_neg hs] at h
        exact Option.noConfusion h

/-- C1: when every configured provider either raises or fails to produce a
successful normalized response, `SearchManager.search` returns the fixed
structured failure response (success=false, error="All search providers
failed", empty results, provider=None) with the state unchanged, and — the
embedding being total, every provider-level exception having been absorbed
inside `tryProvider` — no exception reaches the caller. -/
theorem claim_C1_all_providers_fail (st : SMState)
    (behave : String → Except PyErr PyVal)
    (h : ∀ p ∈ st.providers, tryProvider behave p = Option.none) :
    SearchManager.search st behave = (allProvidersFailedResp, st) := by
  unfold SearchManager.search
  by_cases hc : st.current_provider ∈ st.providers
  · rw [if_pos hc, h st.current_provider hc,
      searchFallback_none behave st.providers h st.fallback_order]
  · rw [if_neg hc, searchFallback_none behave st.providers h st.fallback_order]

/-- Concrete instantiation of C1: two configured providers that both raise. -/
def smFailW : SMState := ⟨["bing", "exa"], "duckduckgo", SEARCH_CONFIG_fallback_order⟩

/-- A provider behavior where every call raises. -/
def behaveFailW : String → Except PyErr PyVal := fun _ => .error .typeError

/-- Witness for C1 at a concrete state and behavior. -/
theorem claim_C1_witness :
    SearchManager.search smFailW behaveFailW = (allProvidersFailedResp, smFailW) :=
  claim_C1_all_providers_fail smFailW behaveFailW (by decide)

/-- C2: the sticky `current_provider` is ruled by success alone.  First
conjunct: when the sticky provider's attempt succeeds, its response is
returned and the whole state — `current_provider` included — is unchanged.
Second conjunct: after any call, either `current_provider` is unchanged, or
it names a provider whose guarded attempt produced exactly the returned
response.  Third conjunct: a guarded attempt only ever reports a response
whose `success` flag is true — so failed or raising calls never reassign
`current_provider`. -/
theorem claim_C2_sticky_provider (st : SMState)
    (behave : String → Except PyErr PyVal) :
    (∀ norm : PyVal, st.current_provider ∈ st.providers →
       tryProvider behave st.current_provider = Option.some norm →
       SearchManager.search st behave = (norm, st)) ∧
    ((SearchManager.search st behave).2.current_provider = st.current_provider ∨
       tryProvider behave ((SearchManager.search st behave).2.current_provider) =
         Option.some (SearchManager.search st behave).1) ∧
    (∀ (p : String) (norm : PyVal), tryProvider behave p = Option.some norm →
       getSuccess norm = true) := by
  refine ⟨?_, ?_, fun p norm h => tryProvider_some_success behave p norm h⟩
  · intro norm hc htp
    unfold SearchManager.search
    rw [if_pos hc, htp]
  · unfold SearchManager.search
    by_cases hc : st.current_provider ∈ st.providers
    · rw [if_pos hc]
      cases htp : tryProvider behave st.current_provider with
      | some norm => left; rfl
      | none =>
        cases hf : searchFallback behave st.providers [st.current_provider]
            st.fallback_order with
        | some np =>
          right
          exact searchFallback_some behave st.providers st.fallback_order
            [st.current_provider] np.1 np.2 (by rw [hf])
        | none => left; rfl
    · rw [if_neg hc]
      cases hf : searchFallback behave st.providers [] st.fallback_order with
      | some np =>
        right
        exact searchFallback_some behave st.providers st.fallback_order
          [] np.1 np.2 (by rw [hf])
      | none => left; rfl

/-- Concrete state for the C2 witness: the sticky provider is configured. -/
def smStickyW : SMState := ⟨["bing"], "bing", SEARCH_CONFIG_fallback_order⟩

/-- A provider behavior returning an empty dict payload (which normalizes to
a successful response with no results). -/
def behaveOkW : String → Except PyErr PyVal := fun _ => .ok (.dict [])

/-- The normalized response of `behaveOkW` under provider `bing`. -/
def normBingW : PyVal := successResp "bing" (.list []) Option.none

/-- Witness for C2: on sticky success the response is returned and the state
is unchanged. -/
theorem claim_C2_witness :
    SearchManager.search smStickyW behaveOkW = (normBingW, smStickyW) :=
  (claim_C2_sticky_provider smStickyW behaveOkW).1 normBingW (by decide) (by decide)

/-! ## Well-formed payloads

`_normalize_results` is not total on arbitrary payloads (see the C5
counterexample); the predicates below describe the payloads on which the
provider branches do not raise: the content-source field, when present,
holds a string, and the score-source field, when present, holds a number. -/

/-- Well-formedness of one raw result item under a field map. -/
def wfItemFM (fm : FieldMap) (r : PyVal) : Bool :=
  match r with
  | .dict kvs =>
    (match dGet kvs fm.contentKey with
     | Option.some (.str _) => true
     | Option.none => true
     | _ => false) &&
    (match fm.scoreKey with
     | Option.some k =>
       (match dGet kvs k with
        | Option.some (.num _) => true
        | Option.none => true
        | _ => false)
     | Option.none => true)
  | _ => false

/-- The score `_normalize_results` assigns to a well-formed raw item:
the constant `1.0` when the variant has no score source, otherwise the raw
numeric score, defaulting to `0.0` when the field is absent. -/
def itemScore (fm : FieldMap) (r : PyVal) : ℚ :=
  match fm.scoreKey with
  | Option.none => 1
  | Option.some k =>
    match r with
    | .dict kvs =>
      (match dGet kvs k with
       | Option.some (.num q) => q
       | _ => 0)
    | _ => 0

/-- The content string read from a well-formed raw item (before truncation). -/
def contentStrOf (fm : FieldMap) (r : PyVal) : String :=
  match r with
  | .dict kvs =>
    (match dGet kvs fm.contentKey with
     | Option.some (.str s) => s
     | _ => "")
  | _ => ""

/-- The canonical item a well-formed raw item maps to: fields read through
the table, content truncated to 500 code points, score as `itemScore`. -/
def mappedItemSpec (fm : FieldMap) (r : PyVal) : PyVal :=
  .dict [("title", dGetD r fm.titleKey (.str "")),
         ("url", dGetD r fm.urlKey (.str "")),
         ("content", .str (String.mk ((contentStrOf fm r).data.take 500))),
         ("score", .num (itemScore fm r)),
         ("published_date",
          if fm.datePassthrough then dGetD r "published_date" PyVal.none else PyVal.none)]

/-- On a well-formed raw item the source's item comprehension body does not
raise and produces exactly the table-mapped canonical item. -/
theorem mapProviderItem_wf (fm : FieldMap) (r : PyVal) (h : wfItemFM fm r = true) :
    mapProviderItem fm r = .ok (mappedItemSpec fm r) := by
  cases r with
  | none => exact absurd h (by simp [wfItemFM])
  | bool b => exact absurd h (by simp [wfItemFM])
  | num q => exact absurd h (by simp [wfItemFM])
  | str s => exact absurd h (by simp [wfItemFM])
  | list xs => exact absurd h (by simp [wfItemFM])
  | dict kvs =>
    unfold wfItemFM at h
    rw [Bool.and_eq_true] at h
    obtain ⟨hc, hs⟩ := h
    cases hdp : fm.datePassthrough with
    | true =>
      cases hsk : fm.scoreKey with
      | none =>
        cases hcv : dGet kvs fm.contentKey with
        | none =>
          simp [mapProviderItem, mappedItemSpec, contentStrOf, itemScore, dGetD, pyGet, hcv,
            hsk, hdp, pySliceTake, pyFloat, Bind.bind, Except.bind, pure, Except.pure, Option.getD]
        | some cv =>
          rw [hcv] at hc
          cases cv <;> simp_all [mapProviderItem, mappedItemSpec, contentStrOf, itemScore, dGetD,
            pyGet, pySliceTake, pyFloat, Bind.bind, Except.bind, pure, Except.pure, Option.getD]
      | some k =>
        rw [hsk] at hs
        cases hkv : dGet kvs k with
        | none =>
          cases hcv : dGet kvs fm.contentKey with
          | none =>
            simp [mapProviderItem, mappedItemSpec, contentStrOf, itemScore, dGetD, pyGet, hcv,
              hsk, hkv, hdp, pySliceTake, pyFloat, Bind.bind, Except.bind, pure, Except.pure,
              Option.getD]
          | some cv =>
            rw [hcv] at hc
            cases cv <;> simp_all [mapProviderItem, mappedItemSpec, contentStrOf, itemScore,
              dGetD, pyGet, pySliceTake, pyFloat, Bind.bind, Except.bind, pure, Except.pure,
              Option.getD]
        | some sv =>
          cases hcv : dGet kvs fm.contentKey with
          | none =>
            cases sv <;> simp_all [mapProviderItem, mappedItemSpec, contentStrOf, itemScore,
              dGetD, pyGet, pySliceTake, pyFloat, Bind.bind, Except.bind, pure, Except.pure,
              Option.getD]
          | some cv =>
            rw [hcv] at hc
            cases cv <;> cases sv <;> simp_all [mapProviderItem, mappedItemSpec, contentStrOf,
              itemScore, dGetD, pyGet, pySliceTake, pyFloat, Bind.bind, Except.bind, pure,
              Except.pure, Option.getD]
    | false =>
      cases hsk : fm.scoreKey with
      | none =>
        cases hcv : dGet kvs fm.contentKey with
        | none =>
          simp [mapProviderItem, mappedItemSpec, contentStrOf, itemScore, dGetD, pyGet, hcv,
            hsk, hdp, pySliceTake, pyFloat, Bind.bind, Except.bind, pure, Except.pure, Option.getD]
        | some cv =>
          rw [hcv] at hc
          cases cv <;> simp_all [mapProviderItem, mappedItemSpec, contentStrOf, itemScore, dGetD,
            pyGet, pySliceTake, pyFloat, Bind.bind, Except.bind, pure, Except.pure, Option.getD]
      | some k =>
        rw [hsk] at hs
        cases hkv : dGet kvs k with
        | none =>
          cases hcv : dGet kvs fm.contentKey with
          | none =>
            simp [mapProviderItem, mappedItemSpec, contentStrOf, itemScore, dGetD, pyGet, hcv,
              hsk, hkv, hdp, pySliceTake, pyFloat, Bind.bind, Except.bind, pure, Except.pure,
              Option.getD]
          | some cv =>
            rw [hcv] at hc
            cases cv <;> simp_all [mapProviderItem, mappedItemSpec, contentStrOf, itemScore,
              dGetD, pyGet, pySliceTake, pyFloat, Bind.bind, Except.bind, pure, Except.pure,
              Option.getD]
        | some sv =>
          cases hcv : dGet kvs fm.contentKey with
          | none =>
            cases sv <;> simp_all [mapProviderItem, mappedItemSpec, contentStrOf, itemScore,
              dGetD, pyGet, pySliceTake, pyFloat, Bind.bind, Except.bind, pure, Except.pure,
              Option.getD]
          | some cv =>
            rw [hcv] at hc
            cases cv <;> cases sv <;> simp_all [mapProviderItem, mappedItemSpec, contentStrOf,
              itemScore, dGetD, pyGet, pySliceTake, pyFloat, Bind.bind, Except.bind, pure,
              Except.pure, Option.getD]

/-- Mapping a list of well-formed raw items never raises and produces
exactly the table-mapped items, one per raw item. -/
theorem mapItems_wf (fm : FieldMap) :
    ∀ xs : List PyVal, xs.all (wfItemFM fm) = true →
      mapItems fm xs = .ok (xs.map (mappedItemSpec fm)) := by
  intro xs h
  induction xs with
  | nil => rfl
  | cons r rs ih =>
    rw [List.all_cons, Bool.and_eq_true] at h
    unfold mapItems
    simp only [mapProviderItem_wf fm r h.1, ih h.2, Bind.bind, Except.bind, List.map]

/-- Whether a payload is a Python dict. -/
def isDictB : PyVal → Bool
  | .dict _ => true
  | _ => false

/-- The `results` value of a payload is a list of `fm`-well-formed items
(or absent, which the source defaults to the empty list). -/
def wfResultsListB (kvs : List (String × PyVal)) (fm : FieldMap) : Bool :=
  match dGet kvs "results" with
  | Option.some (.list rs) => rs.all (wfItemFM fm)
  | Option.none => true
  | Option.some _ => false

/-- Payloads on which the `_normalize_results` branch of provider `p` does
not raise: a dict without an `error` key whose branch-relevant list holds
well-formed items; for a Tavily payload without `articles` the `results`
value (if present) must merely be a list, since it is passed through. -/
def wfPayload (p : String) (raw : PyVal) : Bool :=
  match raw with
  | .dict kvs =>
    (dGet kvs "error").isNone &&
    (if p = "tavily" then
       (match dGet kvs "articles" with
        | Option.some (.list arts) => arts.all (wfItemFM tavilyMap)
        | Option.some _ => false
        | Option.none =>
          (match dGet kvs "results" with
           | Option.some (.list _) => true
           | Option.none => true
           | Option.some _ => false))
     else if p = "brave" then wfResultsListB kvs braveMap
     else if p = "bing" then wfResultsListB kvs bingMap
     else if p = "exa" then wfResultsListB kvs exaMap
     else true)
  | _ => false

/-- The number of normalized results `_normalize_results` produces from a
well-formed payload: the raw item count, except that DuckDuckGo payloads
always normalize to zero results. -/
def expectedCount (p : String) (raw : PyVal) : Nat :=
  match raw with
  | .dict kvs =>
    if p = "duckduckgo" then 0
    else if p = "tavily" then
      (match dGet kvs "articles" with
       | Option.some (.list xs) => xs.length
       | Option.some _ => 0
       | Option.none =>
         (match dGet kvs "results" with
          | Option.some (.list xs) => xs.length
          | _ => 0))
    else
      (match dGet kvs "results" with
       | Option.some (.list xs) => xs.length
       | _ => 0)
  | _ => 0

/-- The raw score field `key` of an item, when numeric, is nonnegative. -/
def rawScoreNonneg (key : String) (r : PyVal) : Bool :=
  match r with
  | .dict kvs =>
    (match dGet kvs key with
     | Option.some (.num q) => decide (0 ≤ q)
     | _ => true)
  | _ => true

/-- A raw item supplies no negative score through the map's score source. -/
def rawItemScoreOkB (fm : FieldMap) (r : PyVal) : Bool :=
  match fm.scoreKey with
  | Option.some k => rawScoreNonneg k r
  | Option.none => true

/-- Every raw item of the branch-relevant list of payload `raw` supplies a
nonnegative (or no) score. -/
def nonnegRawScores (p : String) (raw : PyVal) : Bool :=
  match raw with
  | .dict kvs =>
    if p = "tavily" then
      (match dGet kvs "articles" with
       | Option.some (.list xs) => xs.all (rawItemScoreOkB tavilyMap)
       | Option.some _ => true
       | Option.none =>
         (match dGet kvs "results" with
          | Option.some (.list xs) => xs.all (rawItemScoreOkB tavilyMap)
          | _ => true))
    else if p = "brave" then
      (match dGet kvs "results" with
       | Option.some (.list xs) => xs.all (rawItemScoreOkB braveMap)
       | _ => true)
    else if p = "exa" then
      (match dGet kvs "results" with
       | Option.some (.list xs) => xs.all (rawItemScoreOkB exaMap)
       | _ => true)
    else true
  | _ => true

/-- A normalized success response always carries a truthy `success` flag. -/
theorem getSuccess_successResp (p : String) (rs : PyVal) (ans : Option PyVal) :
    getSuccess (successResp p rs ans) = true := by
  cases ans <;> rfl

/-- Reading back the results list of a success response. -/
theorem resultsListOf_successResp (p : String) (ms : List PyVal) (ans : Option PyVal) :
    resultsListOf (successResp p (.list ms) ans) = Option.some ms := by
  cases ans <;> rfl

/-- The score field of a table-mapped item is exactly `itemScore`. -/
theorem scoreOfItem_mapped (fm : FieldMap) (r : PyVal) :
    scoreOfItem (mappedItemSpec fm r) = Option.some (itemScore fm r) := rfl

/-- A table-mapped item's score is nonnegative whenever the raw item did
not supply a negative score (constant-score variants are unconditional). -/
theorem mapped_scores_nonneg (fm : FieldMap) (xs : List PyVal)
    (h : xs.all (rawItemScoreOkB fm) = true) :
    (xs.map (mappedItemSpec fm)).all itemScoreNonnegB = true := by
  rw [List.all_map]
  rw [List.all_eq_true] at h ⊢
  intro r hr
  have hx := h r hr
  simp only [Function.comp_apply, itemScoreNonnegB, scoreOfItem_mapped]
  rw [decide_eq_true_iff]
  unfold rawItemScoreOkB at hx
  unfold itemScore
  cases hsk : fm.scoreKey with
  | none => exact zero_le_one
  | some k =>
    cases r with
    | dict kvs =>
      simp only [hsk, rawScoreNonneg] at hx
      cases hkv : dGet kvs k with
      | none => simp [hkv]
      | some sv =>
        simp only [hkv] at hx
        cases sv <;> simp_all [hkv]
    | none => simp
    | bool b => simp
    | num q => simp
    | str s => simp
    | list l => simp

/-- The Brave/Bing/Exa branches of `_normalize_results` on a dict payload
without an `error` key: the (possibly defaulted) raw `results` list is
mapped item by item through the provider's field table. -/
theorem normalize_eq_std (p : String) (fm : FieldMap)
    (hp : (p = "brave" ∧ fm = braveMap) ∨ (p = "bing" ∧ fm = bingMap) ∨
          (p = "exa" ∧ fm = exaMap))
    (kvs : List (String × PyVal)) (he : dGet kvs "error" = Option.none)
    (xs : List PyVal)
    (hr : dGet kvs "results" = Option.some (.list xs) ∨
          (dGet kvs "results" = Option.none ∧ xs = []))
    (hwf : xs.all (wfItemFM fm) = true) :
    normalize_results (.dict kvs) p =
      .ok (successResp p (.list (xs.map (mappedItemSpec fm))) (dGet kvs "answer")) := by
  rcases hp with ⟨rfl, rfl⟩ | ⟨rfl, rfl⟩ | ⟨rfl, rfl⟩ <;>
  · unfold normalize_results normalizeBranch
    rcases hr with hr | ⟨hr, rfl⟩ <;>
      simp [he, hr, pyIterate, mapItems_wf _ _ hwf, Option.getD, Bind.bind, Except.bind]

/-- The Tavily branch on a payload carrying an `articles` list. -/
theorem normalize_eq_tavily_articles (kvs : List (String × PyVal))
    (he : dGet kvs "error" = Option.none) (arts : List PyVal)
    (ha : dGet kvs "articles" = Option.some (.list arts))
    (hwf : arts.all (wfItemFM tavilyMap) = true) :
    normalize_results (.dict kvs) "tavily" =
      .ok (successResp "tavily" (.list (arts.map (mappedItemSpec tavilyMap)))
        (dGet kvs "answer")) := by
  unfold normalize_results normalizeBranch
  simp [he, ha, pyIterate, mapItems_wf _ _ hwf, Bind.bind, Except.bind]

/-- The Tavily branch without `articles` passes the raw `results` value
through unmapped (defaulting to the empty list). -/
theorem normalize_eq_tavily_passthrough (kvs : List (String × PyVal))
    (he : dGet kvs "error" = Option.none)
    (ha : dGet kvs "articles" = Option.none) :
    normalize_results (.dict kvs) "tavily" =
      .ok (successResp "tavily" ((dGet kvs "results").getD (.list []))
        (dGet kvs "answer")) := by
  unfold normalize_results normalizeBranch
  simp [he, ha]

/-- The DuckDuckGo branch always normalizes a dict payload without an
`error` key to a success response with empty results: the source reassigns
`results = []` whenever the payload is not a list, which always holds here. -/
theorem normalize_eq_ddg (kvs : List (String × PyVal))
    (he : dGet kvs "error" = Option.none) :
    normalize_results (.dict kvs) "duckduckgo" =
      .ok (successResp "duckduckgo" (.list []) (dGet kvs "answer")) := by
  unfold normalize_results normalizeBranch
  simp [he]

/-- A success-shaped normalization reports success and the results length. -/
theorem post_success (e : Except PyErr PyVal) (p : String) (xs : List PyVal)
    (ans : Option PyVal) (heq : e = .ok (successResp p (.list xs) ans)) :
    isOkSuccess e = true ∧ resultsLenE e = Option.some xs.length := by
  subst heq
  exact ⟨by simp [isOkSuccess, getSuccess_successResp],
         by simp [resultsLenE, resultsListOf_successResp]⟩

/-- A success-shaped normalization whose items all pass the score check has
nonnegative scores. -/
theorem post_scores (e : Except PyErr PyVal) (p : String) (xs : List PyVal)
    (ans : Option PyVal) (heq : e = .ok (successResp p (.list xs) ans))
    (hsc : xs.all itemScoreNonnegB = true) : scoresNonnegE e = true := by
  subst heq
  simp [scoresNonnegE, resultsListOf_successResp, hsc]

/-- On raw items, the `score`-field nonnegativity check coincides with the
canonical item score check (both read the `score` key). -/
theorem rawScoreNonneg_eq_itemCheck (r : PyVal) :
    rawScoreNonneg "score" r = itemScoreNonnegB r := by
  cases r with
  | dict kvs =>
    unfold rawScoreNonneg itemScoreNonnegB scoreOfItem
    cases h : dGet kvs "score" with
    | none => simp [h]
    | some v => cases v <;> simp [h]
  | none => rfl
  | bool b => rfl
  | num q => rfl
  | str s => rfl
  | list l => rfl

/-- C5 (amended): for every supported provider id, `_normalize_results`
never raises on well-formed payloads — dict payloads without an `error` key
whose branch-relevant result items are dicts with string content fields and
numeric score fields — and then reports success with exactly one normalized
item per raw item (always zero for DuckDuckGo), a count capped by no
requested maximum; when no raw item supplies a negative score, every
normalized score is nonnegative (raw payloads can force negative scores,
and ill-typed payloads can make the source raise: see the counterexample).
Non-dict payloads and payloads containing an `error` key normalize to
`success=false` with empty results. -/
theorem claim_C5_normalize_wf_total (p : String) (raw : PyVal)
    (hp : p ∈ supportedProviders) :
    (isDictB raw = false → normalize_results raw p = .ok (invalidFormatResp p)) ∧
    (∀ (kvs : List (String × PyVal)) (e : PyVal), raw = .dict kvs →
       dGet kvs "error" = Option.some e →
       normalize_results raw p = .ok (errorResp e p)) ∧
    (wfPayload p raw = true →
       isOkSuccess (normalize_results raw p) = true ∧
       resultsLenE (normalize_results raw p) = Option.some (expectedCount p raw) ∧
       (nonnegRawScores p raw = true → scoresNonnegE (normalize_results raw p) = true)) := by
  refine ⟨?_, ?_, ?_⟩
  · intro hd
    cases raw <;> simp_all [isDictB, normalize_results]
  · rintro kvs e rfl he
    unfold normalize_results
    simp [he]
  · intro hwf
    cases raw with
    | dict kvs =>
      unfold wfPayload at hwf
      rw [Bool.and_eq_true] at hwf
      obtain ⟨he0, hbr⟩ := hwf
      have he : dGet kvs "error" = Option.none := by
        cases hh : dGet kvs "error" with
        | none => rfl
        | some v => rw [hh] at he0; simp [Option.isNone] at he0
      fin_cases hp
      · -- tavily
        rw [if_pos rfl] at hbr
        cases ha : dGet kvs "articles" with
        | some av =>
          simp only [ha] at hbr
          cases av with
          | list arts =>
            have heq := normalize_eq_tavily_articles kvs he arts ha hbr
            obtain ⟨h1, h2⟩ := post_success _ _ _ _ heq
            refine ⟨h1, ?_, ?_⟩
            · rw [h2, List.length_map]
              simp [expectedCount, ha]
            · intro hnn
              refine post_scores _ _ _ _ heq (mapped_scores_nonneg _ _ ?_)
              simp only [nonnegRawScores, if_pos rfl, ha] at hnn
              exact hnn
          | none => simp at hbr
          | bool b => simp at hbr
          | num q => simp at hbr
          | str s => simp at hbr
          | dict d => simp at hbr
        | none =>
          simp only [ha] at hbr
          have heq := normalize_eq_tavily_passthrough kvs he ha
          cases hr : dGet kvs "results" with
          | some rv =>
            simp only [hr] at hbr
            cases rv with
            | list xs =>
              simp only [hr, Option.getD_some] at heq
              obtain ⟨h1, h2⟩ := post_success _ _ _ _ heq
              refine ⟨h1, ?_, ?_⟩
              · rw [h2]
                simp [expectedCount, ha, hr]
              · intro hnn
                refine post_scores _ _ _ _ heq ?_
                simp [nonnegRawScores, ha, hr] at hnn
                rw [List.all_eq_true]
                intro r hrr
                rw [← rawScoreNonneg_eq_itemCheck r]
                have hx := hnn r hrr
                simpa [rawItemScoreOkB, tavilyMap] using hx
            | none => simp at hbr
            | bool b => simp at hbr
            | num q => simp at hbr
            | str s => simp at hbr
            | dict d => simp at hbr
          | none =>
            simp only [hr, Option.getD_none] at heq
            obtain ⟨h1, h2⟩ := post_success _ _ _ _ heq
            refine ⟨h1, ?_, fun hnn => post_scores _ _ _ _ heq (by simp)⟩
            rw [h2]
            simp [expectedCount, ha, hr]
      · -- brave
        rw [if_neg (by decide), if_pos rfl] at hbr
        unfold wfResultsListB at hbr
        cases hr : dGet kvs "results" with
        | some rv =>
          simp only [hr] at hbr
          cases rv with
          | list xs =>
            have heq := normalize_eq_std "brave" braveMap (Or.inl ⟨rfl, rfl⟩) kvs he xs
              (Or.inl hr) hbr
            obtain ⟨h1, h2⟩ := post_success _ _ _ _ heq
            refine ⟨h1, ?_, ?_⟩
            · rw [h2, List.length_map]
              simp [expectedCount, hr]
            · intro hnn
              refine post_scores _ _ _ _ heq (mapped_scores_nonneg _ _ ?_)
              simp [nonnegRawScores, hr] at hnn
              rw [List.all_eq_true]
              exact hnn
          | none => simp at hbr
          | bool b => simp at hbr
          | num q => simp at hbr
          | str s => simp at hbr
          | dict d => simp at hbr
        | none =>
          have heq := normalize_eq_std "brave" braveMap (Or.inl ⟨rfl, rfl⟩) kvs he []
            (Or.inr ⟨hr, rfl⟩) (by simp)
          simp only [List.map_nil] at heq
          obtain ⟨h1, h2⟩ := post_success _ _ _ _ heq
          exact ⟨h1, by rw [h2]; simp [expectedCount, hr],
            fun hnn => post_scores _ _ _ _ heq (by simp)⟩
      · -- bing
        rw [if_neg (by decide), if_neg (by decide), if_pos rfl] at hbr
        unfold wfResultsListB at hbr
        cases hr : dGet kvs "results" with
        | some rv =>
          simp only [hr] at hbr
          cases rv with
          | list xs =>
            have heq := normalize_eq_std "bing" bingMap (Or.inr (Or.inl ⟨rfl, rfl⟩)) kvs he xs
              (Or.inl hr) hbr
            obtain ⟨h1, h2⟩ := post_success _ _ _ _ heq
            refine ⟨h1, ?_, ?_⟩
            · rw [h2, List.length_map]
              simp [expectedCount, hr]
            · intro hnn
              refine post_scores _ _ _ _ heq (mapped_scores_nonneg _ _ ?_)
              rw [List.all_eq_true]
              intro r hrx
              rfl
          | none => simp at hbr
          | bool b => simp at hbr
          | num q => simp at hbr
          | str s => simp at hbr
          | dict d => simp at hbr
        | none =>
          have heq := normalize_eq_std "bing" bingMap (Or.inr (Or.inl ⟨rfl, rfl⟩)) kvs he []
            (Or.inr ⟨hr, rfl⟩) (by simp)
          simp only [List.map_nil] at heq
          obtain ⟨h1, h2⟩ := post_success _ _ _ _ heq
          exact ⟨h1, by rw [h2]; simp [expectedCount, hr],
            fun hnn => post_scores _ _ _ _ heq (by simp)⟩
      · -- exa
        rw [if_neg (by decide), if_neg (by decide), if_neg (by decide), if_pos rfl] at hbr
        unfold wfResultsListB at hbr
        cases hr : dGet kvs "results" with
        | some rv =>
          simp only [hr] at hbr
          cases rv with
          | list xs =>
            have heq := normalize_eq_std "exa" exaMap (Or.inr (Or.inr ⟨rfl, rfl⟩)) kvs he xs
              (Or.inl hr) hbr
            obtain ⟨h1, h2⟩ := post_success _ _ _ _ heq
            refine ⟨h1, ?_, ?_⟩
            · rw [h2, List.length_map]
              simp [expectedCount, hr]
            · intro hnn
              refine post_scores _ _ _ _ heq (mapped_scores_nonneg _ _ ?_)
              simp [nonnegRawScores, hr] at hnn
              rw [List.all_eq_true]
              exact hnn
          | none => simp at hbr
          | bool b => simp at hbr
          | num q => simp at hbr
          | str s => simp at hbr
          | dict d => simp at hbr
        | none =>
          have heq := normalize_eq_std "exa" exaMap (Or.inr (Or.inr ⟨rfl, rfl⟩)) kvs he []
            (Or.inr ⟨hr, rfl⟩) (by simp)
          simp only [List.map_nil] at heq
          obtain ⟨h1, h2⟩ := post_success _ _ _ _ heq
          exact ⟨h1, by rw [h2]; simp [expectedCount, hr],
            fun hnn => post_scores _ _ _ _ heq (by simp)⟩
      · -- duckduckgo
        have heq := normalize_eq_ddg kvs he
        obtain ⟨h1, h2⟩ := post_success _ _ _ _ heq
        exact ⟨h1, by rw [h2]; simp [expectedCount],
          fun hnn => post_scores _ _ _ _ heq (by simp)⟩
    | none => simp [wfPayload] at hwf
    | bool b => simp [wfPayload] at hwf
    | num q => simp [wfPayload] at hwf
    | str s => simp [wfPayload] at hwf
    | list l => simp [wfPayload] at hwf

/-- C5 counterexample, refuting the claim as stated on three counts at
explicit concrete payloads under provider `brave`: (1) a payload whose
results list holds `None` makes `_normalize_results` raise
(`None.get(...)`, an `AttributeError`), so normalization is not total; (2) a
raw relevance score of -1 normalizes to the score -1, outside [0, ∞); (3) a
payload with 11 items normalizes to 11 results, exceeding the requested
maximum of 10 configured for Brave — no cap is applied. -/
theorem claim_C5_counterexample :
    normalize_results (.dict [("results", .list [PyVal.none])]) "brave" =
      .error .attributeError ∧
    firstScoreE (normalize_results
      (.dict [("results", .list [.dict [("relevance_score", .num (-1))]])]) "brave") =
      Option.some (-1) ∧
    resultsLenE (normalize_results
      (.dict [("results", .list (List.replicate 11 (.dict [])))]) "brave") =
      Option.some 11 ∧
    SEARCH_CONFIG_max_results "brave" < 11 :=
  ⟨by decide, by decide, by decide, by decide⟩

/-- A concrete well-formed Brave payload for the C5 witness. -/
def braveWfPayloadW : PyVal :=
  .dict [("results", .list [.dict [("title", .str "t"), ("url", .str "u"),
    ("description", .str "d"), ("relevance_score", .num 2)]])]

/-- Witness for C5 at a concrete well-formed Brave payload. -/
theorem claim_C5_witness :
    isOkSuccess (normalize_results braveWfPayloadW "brave") = true ∧
    resultsLenE (normalize_results braveWfPayloadW "brave") =
      Option.some (expectedCount "brave" braveWfPayloadW) ∧
    scoresNonnegE (normalize_results braveWfPayloadW "brave") = true := by
  have h := (claim_C5_normalize_wf_total "brave" braveWfPayloadW (by decide)).2.2 (by decide)
  exact ⟨h.1, h.2.1, h.2.2 (by decide)⟩

/-- The `content` length of a canonical result item, when it is a string. -/
def contentLenOfItem (r : PyVal) : Option Nat :=
  match r with
  | .dict kvs =>
    (match dGet kvs "content" with
     | Option.some (.str s) => Option.some s.length
     | _ => Option.none)
  | _ => Option.none

/-- C6 (amended): each raw result item of the mapped variants goes through
the provider's fixed field-mapping table (`providerFieldMaps`) into the
canonical shape, with the content field truncated to 500 code points; the
score defaults to 0.0 — not 1.0 — when Tavily, Brave or Exa supply none,
and is the constant 1.0 for Bing and DuckDuckGo; moreover a Tavily payload
without `articles` passes its raw `results` value through unmapped, and a
DuckDuckGo dict payload always normalizes to empty results, so its items
are never mapped at all. -/
theorem claim_C6_field_mapping :
    (∀ fm ∈ providerFieldMaps, ∀ r : PyVal, wfItemFM fm r = true →
       mapProviderItem fm r = .ok (mappedItemSpec fm r)) ∧
    (∀ (fm : FieldMap) (r : PyVal),
       (contentLenOfItem (mappedItemSpec fm r)).getD 501 ≤ 500) ∧
    (∀ kvs : List (String × PyVal), dGet kvs "score" = Option.none →
       itemScore tavilyMap (.dict kvs) = 0) ∧
    (∀ kvs : List (String × PyVal), dGet kvs "relevance_score" = Option.none →
       itemScore braveMap (.dict kvs) = 0 ∧ itemScore exaMap (.dict kvs) = 0) ∧
    (∀ r : PyVal, itemScore bingMap r = 1 ∧ itemScore ddgMap r = 1) ∧
    (∀ kvs : List (String × PyVal), dGet kvs "error" = Option.none →
       dGet kvs "articles" = Option.none →
       normalize_results (.dict kvs) "tavily" =
         .ok (successResp "tavily" ((dGet kvs "results").getD (.list []))
           (dGet kvs "answer"))) ∧
    (∀ kvs : List (String × PyVal), dGet kvs "error" = Option.none →
       normalize_results (.dict kvs) "duckduckgo" =
         .ok (successResp "duckduckgo" (.list []) (dGet kvs "answer"))) := by
  refine ⟨fun fm _ r h => mapProviderItem_wf fm r h, ?_, ?_, ?_, ?_,
    fun kvs he ha => normalize_eq_tavily_passthrough kvs he ha,
    fun kvs he => normalize_eq_ddg kvs he⟩
  · intro fm r
    simp only [contentLenOfItem, mappedItemSpec]
    have h : (String.mk ((contentStrOf fm r).data.take 500)).length ≤ 500 := by
      show (List.take 500 (contentStrOf fm r).data).length ≤ 500
      rw [List.length_take]
      exact min_le_left _ _
    simp [dGet, h]
  · intro kvs h
    simp [itemScore, tavilyMap, h]
  · intro kvs h
    exact ⟨by simp [itemScore, braveMap, h], by simp [itemScore, exaMap, h]⟩
  · intro r
    exact ⟨by simp [itemScore, bingMap], by simp [itemScore, ddgMap]⟩

/-- C6 counterexample: a Brave raw item that supplies no relevance score
normalizes with score 0.0, refuting the claimed default of 1.0. -/
theorem claim_C6_counterexample :
    firstScoreE (normalize_results (.dict [("results", .list [.dict []])]) "brave") =
      Option.some 0 ∧ (0 : ℚ) ≠ 1 :=
  ⟨by decide, by decide⟩

/-- A concrete Exa raw item for the C6 witness, with an over-long text. -/
def exaItemW : PyVal :=
  .dict [("title", .str "t"), ("url", .str "u"),
         ("text", .str (String.mk (List.replicate 600 'x'))),
         ("relevance_score", .num 3)]

/-- Witness for C6: the Exa table maps a concrete raw item. -/
theorem claim_C6_witness :
    mapProviderItem exaMap exaItemW = .ok (mappedItemSpec exaMap exaItemW) ∧
    (contentLenOfItem (mappedItemSpec exaMap exaItemW)).getD 501 ≤ 500 := by
  have h := claim_C6_field_mapping
  exact ⟨h.1 exaMap (by decide) exaItemW (by decide), h.2.1 exaMap exaItemW⟩

/-- Renormalizing a failure response is the identity: the response carries
its error under the `error` key, so the error branch rebuilds it verbatim. -/
theorem normalize_errorResp (e : PyVal) (p : String) :
    normalize_results (errorResp e p) p = .ok (errorResp e p) := rfl

/-- Renormalizing a success response collapses it to a failure: the success
shell carries an explicit `error` key bound to `None`, and the
`'error' in results` containment check of the source fires on key presence
alone. -/
theorem normalize_successResp (p : String) (rs : PyVal) (ans : Option PyVal) :
    normalize_results (successResp p rs ans) p = .ok (errorResp PyVal.none p) := by
  cases ans <;> rfl

/-- A failure response returned by `_normalize_results` has the
`errorResp` shape. -/
theorem normalize_ok_shape (raw : PyVal) (p : String) (v : PyVal)
    (h : normalize_results raw p = .ok v) :
    (∃ e, v = errorResp e p) ∨
    (∃ rs ans, v = successResp p rs ans) := by
  cases raw with
  | dict kvs =>
    unfold normalize_results at h
    cases he : dGet kvs "error" with
    | some e =>
      simp only [he] at h
      exact Or.inl ⟨e, (Except.ok.inj h).symm⟩
    | none =>
      simp only [he] at h
      cases hb : normalizeBranch p kvs with
      | error err => simp only [hb] at h; exact Except.noConfusion h
      | ok rs =>
        simp only [hb] at h
        exact Or.inr ⟨rs, dGet kvs "answer", (Except.ok.inj h).symm⟩
  | none => exact Or.inl ⟨_, (Except.ok.inj h).symm⟩
  | bool b => exact Or.inl ⟨_, (Except.ok.inj h).symm⟩
  | num q => exact Or.inl ⟨_, (Except.ok.inj h).symm⟩
  | str s => exact Or.inl ⟨_, (Except.ok.inj h).symm⟩
  | list l => exact Or.inl ⟨_, (Except.ok.inj h).symm⟩

/-- A failure response reports a falsy `success` flag. -/
theorem getSuccess_errorResp (e : PyVal) (p : String) :
    getSuccess (errorResp e p) = false := rfl

/-- C7 (amended): normalization is idempotent exactly on failure responses.
When `_normalize_results(raw, p)` returns a response with `success=false`,
renormalizing that response returns it unchanged; but a success response is
not a fixed point: it carries an explicit `error` key bound to `None`,
which the renormalization's `'error' in results` containment check treats
as a present error, so the second pass yields the `success=false` failure
response carrying `error=None` (see the counterexample), refuting the
claimed unconditional idempotence. -/
theorem claim_C7_idempotent_on_failure (raw : PyVal) (p : String) (v : PyVal)
    (h : normalize_results raw p = .ok v) :
    (getSuccess v = false → normalize_results v p = .ok v) ∧
    (getSuccess v = true → normalize_results v p = .ok (errorResp PyVal.none p)) := by
  rcases normalize_ok_shape raw p v h with ⟨e, rfl⟩ | ⟨rs, ans, rfl⟩
  · exact ⟨fun _ => normalize_errorResp e p,
      fun ht => absurd ht (by simp [getSuccess_errorResp])⟩
  · exact ⟨fun hf => absurd hf (by simp [getSuccess_successResp]),
      fun _ => normalize_successResp p rs ans⟩

/-- C7 counterexample: at the concrete payload `{}` under provider `bing`,
normalizing once succeeds (success=true, empty results), but normalizing
the normalized response again yields success=false — composing
`_normalize_results` with itself differs from one application. -/
theorem claim_C7_counterexample :
    ¬ ((normalize_results (.dict []) "bing").bind
         (fun v => normalize_results v "bing") =
       normalize_results (.dict []) "bing") := by decide

/-- Witness for C7: renormalizing the concrete failure response produced by
a non-dict payload returns it unchanged. -/
theorem claim_C7_witness :
    normalize_results (invalidFormatResp "exa") "exa" =
      .ok (invalidFormatResp "exa") :=
  (claim_C7_idempotent_on_failure (.str "boom") "exa" (invalidFormatResp "exa")
    (by decide)).1 (by decide)

/-! ## The retrieval loop (`EnhancedSelfImprovingSearch`, `Self_Improving_Search.py`)

The loop's collaborators — the search manager (behind `perform_search`),
the page selector, the content scraper and the text-generation service —
are modelled as per-attempt oracles; each may raise, and
`search_and_improve` catches any exception at the attempt boundary. -/

/-- The fixed apology of `generate_final_answer` (line 341). -/
def apologyGenerate : String :=
  "I apologize, but I couldn't generate a satisfactory answer based on the available information."

/-- The fixed apology of `synthesize_final_answer` (line 369). -/
def apologySynthesize : String :=
  "I apologize, but after multiple attempts, I wasn't able to find a satisfactory answer to your question. Please try rephrasing your question or breaking it down into smaller, more specific queries."

/-- `generate_final_answer` (lines 311-343): up to `max_retries = 3`
generation calls (whose responses, indexed by retry, are the oracle
`llmResp`); the first truthy response is returned as-is, and after three
falsy responses the fixed apology is returned.  A generation call has no
surrounding `try`, so its exception propagates to the caller. -/
def generate_final_answer (llmResp : Nat → Except PyErr String) :
    Except PyErr String :=
  match llmResp 0 with
  | .error e => .error e
  | .ok r0 =>
    if r0 ≠ "" then .ok r0 else
      match llmResp 1 with
      | .error e => .error e
      | .ok r1 =>
        if r1 ≠ "" then .ok r1 else
          match llmResp 2 with
          | .error e => .error e
          | .ok r2 =>
            if r2 ≠ "" then .ok r2 else .ok apologyGenerate

/-- Python's whitespace predicate (the `Py_UNICODE_ISSPACE` set that
`str.strip()` removes): the ASCII whitespace characters — space, tab, line
feed, vertical tab, form feed, carriage return — the separator controls
x1c-x1f, and the Unicode space characters NEL, NBSP, OGHAM SPACE MARK,
the EN-QUAD..HAIR-SPACE range, LINE/PARAGRAPH SEPARATOR, NARROW NBSP,
MEDIUM MATHEMATICAL SPACE and IDEOGRAPHIC SPACE. -/
def pyIsSpace (c : Char) : Bool :=
  c = ' ' || c = '\t' || c = '\n' || c = '\x0b' || c = '\x0c' || c = '\r' ||
  c = '\x1c' || c = '\x1d' || c = '\x1e' || c = '\x1f' ||
  c = '\x85' || c = '\xa0' || c = '\u1680' ||
  (('\u2000').val ≤ c.val && c.val ≤ ('\u200a').val) ||
  c = '\u2028' || c = '\u2029' || c = '\u202f' || c = '\u205f' || c = '\u3000'

/-- Python `s.strip()`: drop Python-whitespace code points from both ends. -/
def pyStrip (s : String) : String :=
  String.mk (((s.data.dropWhile pyIsSpace).reverse.dropWhile pyIsSpace).reverse)

/-- A form-feed-only string — whitespace to Python though not to Lean's
`Char.isWhitespace` — does strip to the empty string in the model. -/
theorem pyStrip_formfeed : pyStrip "\x0c" = "" := by decide

/-- `synthesize_final_answer` (lines 352-369): one generation call inside a
`try`; a truthy response is returned stripped of surrounding whitespace,
and a falsy response or an exception yields the fixed apology. -/
def synthesize_final_answer (llmResp : Except PyErr String) : String :=
  match llmResp with
  | .ok s => if s ≠ "" then pyStrip s else apologySynthesize
  | .error _ => apologySynthesize

/-- Modelled from the spec: `evaluate_scraped_content` is not part of the
sources at hand (only its caller is), and the spec states that the EVALUATE
step's decision token is constrained to the two values "answer" and
"refine", with any unparseable token defaulting to "answer" (fail open
toward termination). -/
def evaluate_decision (rawToken : String) : String :=
  if rawToken = "refine" then "refine"
  else if rawToken = "answer" then "answer"
  else "answer"

/-- The collaborators of one `search_and_improve` call, indexed by attempt:
the response of `perform_search`, the selected URLs, the scraped
url-to-content map, the evaluation narrative and decision token, the
generation responses inside `generate_final_answer` (attempt, retry), and
the single generation response of `synthesize_final_answer`. -/
structure LoopOracle where
  searchRes : Nat → PyVal
  select : Nat → Except PyErr (List String)
  scrape : Nat → Except PyErr (List (String × String))
  evaluate : Nat → Except PyErr (String × String)
  llmGen : Nat → Nat → Except PyErr String
  synthLLM : Except PyErr String

/-- The outcome of one loop attempt: return an answer, or advance. -/
inductive StepRes where
  | answered (ans : String)
  | advance
deriving DecidableEq, Repr

/-- One iteration of the `while` loop of `search_and_improve`
(lines 90-162): an empty formulated query, a non-dict or unsuccessful or
empty search response, no selected URLs, no scraped content, or an
exception anywhere in the attempt (the `except` at line 159) all advance
the attempt; a decision of "refine" advances; any other decision returns
the generated final answer.  `formulate_query` (lines 166-168) returns the
user query itself. -/
def attemptStep (userQuery : String) (o : LoopOracle) (a : Nat) : StepRes :=
  if userQuery = "" then .advance
  else
    match o.searchRes a with
    | .dict kvs =>
      if pyTruthy ((dGet kvs "success").getD PyVal.none) &&
         pyTruthy ((dGet kvs "results").getD PyVal.none) then
        match o.select a with
        | .error _ => .advance
        | .ok urls =>
          if urls = [] then .advance
          else
            match o.scrape a with
            | .error _ => .advance
            | .ok content =>
              if content = [] then .advance
              else
                match o.evaluate a with
                | .error _ => .advance
                | .ok (_, dec) =>
                  if dec = "answer" then
                    match generate_final_answer (o.llmGen a) with
                    | .ok ans => .answered ans
                    | .error _ => .advance
                  else if dec = "refine" then .advance
                  else
                    match generate_final_answer (o.llmGen a) with
                    | .ok ans => .answered ans
                    | .error _ => .advance
      else .advance
    | _ => .advance

/-- The `while attempt < max_attempts` loop from attempt index `a`, with
`fuel` the number of attempts remaining (`max_attempts - a`), returning the
final string and the attempt index reached: once the budget is exhausted
the loop falls through to `synthesize_final_answer`. -/
def loopIter (userQuery : String) (o : LoopOracle) : Nat → Nat → String × Nat
  | 0, a => (synthesize_final_answer o.synthLLM, a)
  | fuel + 1, a =>
    match attemptStep userQuery o a with
    | .answered ans => (ans, a + 1)
    | .advance => loopIter userQuery o fuel (a + 1)

/-- `search_and_improve(user_query)` (lines 88-164): run the bounded
attempt loop from attempt 0 with the full `max_attempts` budget; when the
budget is exhausted, return the synthesized best-effort answer.  The second
component counts the attempts consumed. -/
def search_and_improve (userQuery : String) (maxAttempts : Nat) (o : LoopOracle) :
    String × Nat :=
  loopIter userQuery o maxAttempts 0

/-- C3: the EVALUATE decision resolves every attempt toward termination.
First conjunct: the (spec-modelled) decision parse only ever produces
"answer" or "refine", any unparseable token defaulting to "answer".
Second conjunct, about the dispatch in `search_and_improve` (lines
148-157): on an attempt whose earlier steps all succeed, a decision of
"refine" advances the attempt, and any other decision — "answer" included —
returns the generated final answer, so no evaluation outcome can loop
without consuming budget. -/
theorem claim_C3_decision_resolves (rawToken : String) :
    (evaluate_decision rawToken = "answer" ∨ evaluate_decision rawToken = "refine") ∧
    (∀ (uq : String) (o : LoopOracle) (a : Nat) (ev ans : String)
       (urls : List String) (content : List (String × String))
       (kvs : List (String × PyVal)),
       uq ≠ "" →
       o.searchRes a = .dict kvs →
       pyTruthy ((dGet kvs "success").getD PyVal.none) = true →
       pyTruthy ((dGet kvs "results").getD PyVal.none) = true →
       o.select a = .ok urls → urls ≠ [] →
       o.scrape a = .ok content → content ≠ [] →
       o.evaluate a = .ok (ev, evaluate_decision rawToken) →
       generate_final_answer (o.llmGen a) = .ok ans →
       attemptStep uq o a =
         (if evaluate_decision rawToken = "refine" then .advance
          else .answered ans)) := by
  constructor
  · unfold evaluate_decision
    by_cases h : rawToken = "refine"
    · right; simp [h]
    · left; simp [h]
  · intro uq o a ev ans urls content kvs hq hs hsu hre hsel hurls hscr hcon hev hgen
    by_cases hr : rawToken = "refine"
    · simp [attemptStep, evaluate_decision, hq, hs, hsu, hre, hsel, hurls, hscr, hcon,
        hev, hgen, hr]
    · simp [attemptStep, evaluate_decision, hq, hs, hsu, hre, hsel, hurls, hscr, hcon,
        hev, hgen, hr]

/-- Concrete oracle for the C3 witness: all steps of the attempt succeed
and the evaluation yields the parse of an unparseable token. -/
def oracleAnswerW : LoopOracle :=
  ⟨fun _ => .dict [("success", .bool true), ("results", .list [.dict []])],
   fun _ => .ok ["http-a"],
   fun _ => .ok [("http-a", "text")],
   fun _ => .ok ("narrative", evaluate_decision "banana"),
   fun _ _ => .ok "final answer",
   .ok "synth"⟩

/-- Witness for C3: the unparseable token "banana" parses to "answer" and
the attempt returns the generated final answer. -/
theorem claim_C3_witness :
    attemptStep "q" oracleAnswerW 0 = .answered "final answer" := by
  have h := (claim_C3_decision_resolves "banana").2 "q" oracleAnswerW 0 "narrative"
    "final answer" ["http-a"] [("http-a", "text")]
    [("success", .bool true), ("results", .list [.dict []])]
    (by decide) rfl (by decide) (by decide) rfl (by decide) rfl (by decide) rfl (by decide)
  rw [h]
  decide

/-- `generate_final_answer` never returns the empty string: it returns
either a truthy generation response or the fixed apology. -/
theorem generate_final_answer_ne_empty (llmResp : Nat → Except PyErr String)
    (s : String) (h : generate_final_answer llmResp = .ok s) : s ≠ "" := by
  unfold generate_final_answer at h
  cases h0 : llmResp 0 with
  | error e => simp only [h0] at h; exact Except.noConfusion h
  | ok r0 =>
    simp only [h0] at h
    by_cases hr0 : r0 ≠ ""
    · rw [if_pos hr0] at h
      cases Except.ok.inj h
      exact hr0
    · rw [if_neg hr0] at h
      cases h1 : llmResp 1 with
      | error e => simp only [h1] at h; exact Except.noConfusion h
      | ok r1 =>
        simp only [h1] at h
        by_cases hr1 : r1 ≠ ""
        · rw [if_pos hr1] at h
          cases Except.ok.inj h
          exact hr1
        · rw [if_neg hr1] at h
          cases h2 : llmResp 2 with
          | error e => simp only [h2] at h; exact Except.noConfusion h
          | ok r2 =>
            simp only [h2] at h
            by_cases hr2 : r2 ≠ ""
            · rw [if_pos hr2] at h
              cases Except.ok.inj h
              exact hr2
            · rw [if_neg hr2] at h
              cases Except.ok.inj h
              decide

/-- The synthesize-step generation response is not a nonempty string made
of whitespace only — the one shape that defeats non-emptiness (see the C8
counterexample). -/
def synthRespOkB (e : Except PyErr String) : Bool :=
  match e with
  | .ok s => if s = "" then true else if pyStrip s = "" then false else true
  | .error _ => true

/-- `synthesize_final_answer` is nonempty unless the generation response is
nonempty but strips to nothing. -/
theorem synthesize_ne_empty (e : Except PyErr String)
    (h : synthRespOkB e = true) : synthesize_final_answer e ≠ "" := by
  cases e with
  | error err =>
    show apologySynthesize ≠ ""
    decide
  | ok s =>
    replace h : (if s = "" then true else if pyStrip s = "" then false else true) = true := h
    show (if s ≠ "" then pyStrip s else apologySynthesize) ≠ ""
    by_cases hs : s = ""
    · rw [if_neg (by simp [hs])]
      decide
    · rw [if_pos hs]
      rw [if_neg hs] at h
      by_cases ht : pyStrip s = ""
      · rw [if_pos ht] at h
        exact Bool.noConfusion h
      · exact ht

/-- An attempt can only answer with the result of `generate_final_answer`,
which is never empty. -/
theorem attemptStep_answered_ne_empty (uq : String) (o : LoopOracle) (a : Nat)
    (ans : String) (h : attemptStep uq o a = .answered ans) : ans ≠ "" := by
  unfold attemptStep at h
  by_cases hq : uq = ""
  · rw [if_pos hq] at h
    exact StepRes.noConfusion h
  · rw [if_neg hq] at h
    cases hs : o.searchRes a with
    | none => rw [hs] at h; exact StepRes.noConfusion h
    | bool b => rw [hs] at h; exact StepRes.noConfusion h
    | num q => rw [hs] at h; exact StepRes.noConfusion h
    | str s2 => rw [hs] at h; exact StepRes.noConfusion h
    | list l => rw [hs] at h; exact StepRes.noConfusion h
    | dict kvs =>
    simp only [hs] at h
    by_cases hsu : (pyTruthy ((dGet kvs "success").getD PyVal.none) &&
                    pyTruthy ((dGet kvs "results").getD PyVal.none)) = true
    · rw [if_pos hsu] at h
      cases hsel : o.select a with
      | error e => simp only [hsel] at h; exact StepRes.noConfusion h
      | ok urls =>
        simp only [hsel] at h
        by_cases hu : urls = []
        · rw [if_pos hu] at h
          exact StepRes.noConfusion h
        · rw [if_neg hu] at h
          cases hscr : o.scrape a with
          | error e => simp only [hscr] at h; exact StepRes.noConfusion h
          | ok content =>
            simp only [hscr] at h
            by_cases hc : content = []
            · rw [if_pos hc] at h
              exact StepRes.noConfusion h
            · rw [if_neg hc] at h
              cases hev : o.evaluate a with
              | error e => simp only [hev] at h; exact StepRes.noConfusion h
              | ok pr =>
                obtain ⟨ev, dec⟩ := pr
                simp only [hev] at h
                by_cases hd : dec = "answer"
                · rw [if_pos hd] at h
                  cases hg : generate_final_answer (o.llmGen a) with
                  | error e => simp only [hg] at h; exact StepRes.noConfusion h
                  | ok ans2 =>
                    simp only [hg] at h
                    cases StepRes.answered.inj h
                    exact generate_final_answer_ne_empty _ _ hg
                · rw [if_neg hd] at h
                  by_cases hd2 : dec = "refine"
                  · rw [if_pos hd2] at h
                    exact StepRes.noConfusion h
                  · rw [if_neg hd2] at h
                    cases hg : generate_final_answer (o.llmGen a) with
                    | error e => simp only [hg] at h; exact StepRes.noConfusion h
                    | ok ans2 =>
                      simp only [hg] at h
                      cases StepRes.answered.inj h
                      exact generate_final_answer_ne_empty _ _ hg
    · rw [if_neg hsu] at h
      exact StepRes.noConfusion h

/-- A search response whose `results` field is falsy makes the attempt
advance. -/
theorem attemptStep_advance_of_results_falsy (uq : String) (o : LoopOracle)
    (a : Nat) (h : pyTruthy (dGetD (o.searchRes a) "results" PyVal.none) = false) :
    attemptStep uq o a = .advance := by
  unfold attemptStep
  by_cases hq : uq = ""
  · rw [if_pos hq]
  · rw [if_neg hq]
    cases hs : o.searchRes a with
    | dict kvs =>
      unfold dGetD at h
      simp only [hs] at h
      simp [h]
    | none => rfl
    | bool b => rfl
    | num q => rfl
    | str s => rfl
    | list l => rfl

/-- When every remaining attempt advances, the loop consumes its whole
budget and ends at the synthesized fallback. -/
theorem loopIter_all_advance (uq : String) (o : LoopOracle) :
    ∀ (fuel a : Nat), (∀ k, a ≤ k → k < a + fuel → attemptStep uq o k = .advance) →
      loopIter uq o fuel a = (synthesize_final_answer o.synthLLM, a + fuel) := by
  intro fuel
  induction fuel with
  | zero => intro a _; rfl
  | succ n ih =>
    intro a h
    unfold loopIter
    rw [h a le_rfl (by omega)]
    have harith : a + 1 + n = a + (n + 1) := by omega
    rw [ih (a + 1) (fun k hk1 hk2 => h k (by omega) (by omega)), harith]

/-- The loop never returns the empty string when the synthesize response is
not whitespace-only. -/
theorem loopIter_ne_empty (uq : String) (o : LoopOracle)
    (hsynth : synthRespOkB o.synthLLM = true) :
    ∀ (fuel a : Nat), (loopIter uq o fuel a).1 ≠ "" := by
  intro fuel
  induction fuel with
  | zero => intro a; exact synthesize_ne_empty _ hsynth
  | succ n ih =>
    intro a
    unfold loopIter
    cases hstep : attemptStep uq o a with
    | answered ans => exact attemptStep_answered_ne_empty uq o a ans hstep
    | advance => exact ih (a + 1)

/-- C8 (amended): with max_attempts=5 and a search step whose responses
never carry a truthy `results` field, `search_and_improve` consumes exactly
5 attempts and returns the synthesized fallback.  In general the returned
string is non-empty for every attempt budget and every oracle whose
synthesize-step generation response is not a non-empty whitespace-only
string: `generate_final_answer` results are always non-empty, and
`synthesize_final_answer` is non-empty except in that one shape — the
source strips the response after its truthiness check, so a whitespace-only
response yields an empty return (see the counterexample), refuting the
claimed unconditional non-emptiness. -/
theorem claim_C8_bounded_and_nonempty (userQuery : String) (o : LoopOracle) :
    ((∀ a, a < 5 → pyTruthy (dGetD (o.searchRes a) "results" PyVal.none) = false) →
       search_and_improve userQuery 5 o = (synthesize_final_answer o.synthLLM, 5)) ∧
    (∀ n : Nat, synthRespOkB o.synthLLM = true →
       (search_and_improve userQuery n o).1 ≠ "") := by
  constructor
  · intro h
    unfold search_and_improve
    exact loopIter_all_advance userQuery o 5 0
      (fun k _ hk => attemptStep_advance_of_results_falsy userQuery o k (h k (by omega)))
  · intro n hsynth
    exact loopIter_ne_empty userQuery o hsynth n 0

/-- Concrete oracle for the C8 counterexample: every search response is a
failure with empty results, and the synthesize-step generation response is
one space — truthy, but stripping to nothing. -/
def oracleWhitespaceCE : LoopOracle :=
  ⟨fun _ => .dict [("success", .bool false), ("results", .list [])],
   fun _ => .ok [], fun _ => .ok [], fun _ => .ok ("", ""),
   fun _ _ => .ok "x", .ok " "⟩

/-- C8 counterexample: with max_attempts=5 and a search step always
returning empty results, the loop does terminate after exactly 5 attempts,
but when the fallback generation responds with a single space the caller
receives the empty string — the claimed non-empty result fails. -/
theorem claim_C8_counterexample :
    search_and_improve "query" 5 oracleWhitespaceCE = ("", 5) := by decide

/-- Concrete oracle for the C8 witness: failing searches, apologetic
fallback. -/
def oracleFailSearchW : LoopOracle :=
  ⟨fun _ => .dict [("success", .bool true), ("results", .list [])],
   fun _ => .ok [], fun _ => .ok [], fun _ => .ok ("", ""),
   fun _ _ => .ok "x", .error .valueError⟩

/-- Witness for C8: the concrete always-empty-results run consumes exactly
5 attempts, ends at the synthesized fallback, and is non-empty. -/
theorem claim_C8_witness :
    search_and_improve "query" 5 oracleFailSearchW =
      (synthesize_final_answer oracleFailSearchW.synthLLM, 5) ∧
    (search_and_improve "query" 7 oracleFailSearchW).1 ≠ "" :=
  ⟨(claim_C8_bounded_and_nonempty "query" oracleFailSearchW).1 (fun a _ => rfl),
   (claim_C8_bounded_and_nonempty "query" oracleFailSearchW).2 7 (by decide)⟩

/-! ## Robots-gated scraping (`EnhancedSelfImprovingSearch.scrape_content`) -/

/-- Modelled from the spec: `web_scraper.get_web_content` (the Content
Fetcher, not among the sources at hand) returns a mapping from the given
URLs to their text — for the single-URL calls issued by `scrape_content`,
either that URL's text or nothing.  The fetch outcome per URL is the
parameter `fetch`. -/
def get_web_content_one (fetch : String → Option String) (u : String) :
    List (String × String) :=
  match fetch u with
  | Option.some c => [(u, c)]
  | Option.none => []

/-- `scrape_content(urls)` (lines 277-303): for each URL in order, consult
the robots-policy checker `can_fetch`; only when it allows the URL is the
content fetcher invoked, and a non-empty fetch result is merged into the
url-to-content map.  Returns the map together with the list of URLs on
which the fetcher was actually invoked (the instrumentation needed to state
the claim). -/
def scrape_content (can_fetch : String → Bool) (fetch : String → Option String) :
    List String → List (String × String) × List String
  | [] => ([], [])
  | u :: rest =>
    if can_fetch u then
      (get_web_content_one fetch u ++ (scrape_content can_fetch fetch rest).1,
       u :: (scrape_content can_fetch fetch rest).2)
    else scrape_content can_fetch fetch rest

/-- C9: the content fetcher is invoked only on URLs approved by the
robots-policy checker, and every key of the returned url-to-content map is
an approved URL — a disallowed URL is neither fetched nor present. -/
theorem claim_C9_robots_gating (can_fetch : String → Bool)
    (fetch : String → Option String) (urls : List String) :
    (∀ u, u ∈ (scrape_content can_fetch fetch urls).2 → can_fetch u = true) ∧
    (∀ u c, (u, c) ∈ (scrape_content can_fetch fetch urls).1 →
       can_fetch u = true) := by
  induction urls with
  | nil => exact ⟨fun u h => absurd h (List.not_mem_nil u), fun u c h => absurd h (List.not_mem_nil _)⟩
  | cons v rest ih =>
    constructor
    · intro u hu
      unfold scrape_content at hu
      by_cases hv : can_fetch v = true
      · rw [if_pos hv] at hu
        rcases List.mem_cons.mp hu with h1 | h2
        · rw [h1]
          exact hv
        · exact ih.1 u h2
      · rw [if_neg hv] at hu
        exact ih.1 u hu
    · intro u c huc
      unfold scrape_content at huc
      by_cases hv : can_fetch v = true
      · rw [if_pos hv] at huc
        rcases List.mem_append.mp huc with h1 | h2
        · unfold get_web_content_one at h1
          cases hf : fetch v with
          | some ct =>
            rw [hf] at h1
            have h3 := List.mem_singleton.mp h1
            cases h3
            exact hv
          | none =>
            rw [hf] at h1
            exact absurd h1 (List.not_mem_nil _)
        · exact ih.2 u c h2
      · rw [if_neg hv] at huc
        exact ih.2 u c huc

/-- A concrete robots policy for the C9 witness: everything but `bad` is
allowed. -/
def canFetchW : String → Bool := fun u => u ≠ "bad"

/-- A concrete fetcher for the C9 witness. -/
def fetchW : String → Option String := fun u => Option.some ("content of " ++ u)

/-- Witness for C9: in a concrete run over an allowed and a disallowed URL,
the fetched URL is approved and so is the key of each map entry. -/
theorem claim_C9_witness :
    canFetchW "ok" = true ∧ canFetchW "ok" = true :=
  ⟨(claim_C9_robots_gating canFetchW fetchW ["ok", "bad"]).1 "ok" (by decide),
   (claim_C9_robots_gating canFetchW fetchW ["ok", "bad"]).2 "ok" "content of ok"
     (by decide)⟩

/-! ## Rate-limited search entry (`EnhancedSelfImprovingSearch.perform_search`) -/

/-- The rate-limiting state of `EnhancedSelfImprovingSearch`:
`self.last_request_time` and `self.request_count`. -/
structure RateState where
  last_request_time : ℚ
  request_count : Nat
deriving DecidableEq, Repr

/-- The base search parameters of `perform_search` (lines 192-195). -/
def baseSearchParams : List (String × PyVal) :=
  [("max_results", .num (RESEARCH_CONFIG_max_results_per_search : ℚ)),
   ("min_relevance_score", .num RESEARCH_CONFIG_min_relevance_score)]

/-- The `time_params` table of `perform_search` (lines 198-205), looked up
by the lowercased time range; unrecognized codes add nothing. -/
def timeParams (time_range : String) : List (String × PyVal) :=
  if time_range.toLower = "d" then [("days", .num 1)]
  else if time_range.toLower = "w" then [("days", .num 7)]
  else if time_range.toLower = "m" then [("days", .num 30)]
  else if time_range.toLower = "y" then [("days", .num 365)]
  else []

/-- The failure response for an empty query (line 175). -/
def emptyQueryResp : PyVal :=
  .dict [("success", .bool false), ("error", .str "Empty query"),
         ("results", .list []), ("provider", PyVal.none)]

/-- The outcome of `perform_search`: its returned response, the
rate-limiting state left behind, and whether the search manager was
invoked (the instrumentation needed to state the claim). -/
structure PerformOutcome where
  response : PyVal
  state : RateState
  managerCalled : Bool
deriving Repr

/-- `perform_search(query, time_range)` (lines 170-207): an empty (falsy)
query returns the fixed failure response immediately, leaving the
rate-limiting state untouched and never reaching the search manager.
Otherwise the fixed-window throttle runs — resetting `request_count` when
the window is full and the cooldown has not elapsed (the sleep itself has
no modelled effect) — the trackers are updated with the wall-clock reads
`now` and `now2` (the two `time.time()` calls), and the search manager — a
parameter, as in §4.5 it is a collaborating component — is called with the
merged parameters. -/
def perform_search (st : RateState) (query : String) (time_range : String)
    (now now2 : ℚ) (mgr : List (String × PyVal) → PyVal) : PerformOutcome :=
  if query = "" then
    ⟨emptyQueryResp, st, false⟩
  else
    let rc :=
      if st.request_count ≥ RESEARCH_CONFIG_requests_per_minute ∧
         now - st.last_request_time < RESEARCH_CONFIG_cooldown_period then 0
      else st.request_count
    ⟨mgr (baseSearchParams ++ timeParams time_range), ⟨now2, rc + 1⟩, true⟩

/-- C10: calling `perform_search` with the empty query string returns the
fixed failure response (success=False, error="Empty query", empty results,
provider=None) immediately: the search manager is not invoked and the
rate-limiting state (`request_count` and `last_request_time`) is unchanged,
for every prior state, time range, clock reading and manager behavior. -/
theorem claim_C10_empty_query_frame (st : RateState) (time_range : String)
    (now now2 : ℚ) (mgr : List (String × PyVal) → PyVal) :
    perform_search st "" time_range now now2 mgr = ⟨emptyQueryResp, st, false⟩ :=
  rfl

/-! ## Page selection (`EnhancedSelfImprovingSearch.select_relevant_pages`)

The source annotates the parameter as `List[Dict]`, and its caller (line
121) passes `search_results['results']` — the plain results list; yet lines
250 and 266 subscript the parameter with the string key `'results'`, an
operation that raises `TypeError` on a list.  The embedding reproduces the
subscripting faithfully so the mismatch is observable. -/

/-- One formatted entry of `format_results` (lines 264-275). -/
def format_one_result (i : Nat) (result : PyVal) : Except PyErr String := do
  let title ← pyGet result "title" (.str "N/A")
  let contentRaw ← pyGet result "content" (.str "N/A")
  let snippet ← pySliceTake contentRaw 200
  let url ← pyGet result "url" (.str "N/A")
  let pd ← pyGet result "published_date" PyVal.none
  let sc ← pyGet result "score" PyVal.none
  let base := toString i ++ ". Title: " ++ pyStrOf title ++ "\n   Snippet: " ++
    pyStrOf snippet ++ "...\n   URL: " ++ pyStrOf url ++ "\n"
  let base2 := if pyTruthy pd then base ++ "   Published: " ++ pyStrOf pd ++ "\n" else base
  let base3 := if pyTruthy sc then base2 ++ "   Relevance Score: " ++ pyStrOf sc ++ "\n"
    else base2
  .ok base3

/-- The numbered formatting loop of `format_results`. -/
def formatResultsFrom : Nat → List PyVal → Except PyErr (List String)
  | _, [] => .ok []
  | i, r :: rs => do
    let s ← format_one_result i r
    let tail ← formatResultsFrom (i + 1) rs
    .ok (s :: tail)

/-- `format_results(results)` (lines 264-275): iterates
`enumerate(results['results'], 1)` — the subscript raises `TypeError`
whenever `results` is the plain results list the caller supplies. -/
def format_results (results : PyVal) : Except PyErr String := do
  let resList ← pySubscript results (.str "results")
  let items ← pyIterate resList
  let formatted ← formatResultsFrom 1 items
  .ok (String.intercalate "\n" formatted)

/-- The digit parse of line 249: single digits occurring among the first 40
code points of the response, deduplicated.  The iteration order of the
resulting CPython set is modelled as ascending; this coincides with CPython
for digit sets within 0-7, while 8 and 9 wrap in the 8-slot table and may
iterate first — the theorems evaluated on this definition reach the same
observable outcome under either order. -/
def parsedDigits (response : String) : List Nat :=
  (List.range 10).filter
    (fun d => (((response.data.take 40).filter Char.isDigit).map
      (fun c => c.toNat - 48)).contains d)

/-- `can_fetch(url)` applied to a selected value: the robots checker
consumes a URL string; a non-string selection raises. -/
def canFetchPy (can_fetch : String → Bool) (v : PyVal) : Except PyErr Bool :=
  match v with
  | .str s => .ok (can_fetch s)
  | _ => .error .typeError

/-- The comprehension of line 250: for each parsed digit `i`, evaluate
`search_results['results'][i-1]['url']` — with Python semantics for the
string subscript on a list (`TypeError`), the 1-based offset (digit 0
becomes index -1, wrapping to the last element) and out-of-range indices
(`IndexError`). -/
def selectByIndices (search_results : PyVal) : List Nat → Except PyErr (List PyVal)
  | [] => .ok []
  | i :: is => do
    let lst ← pySubscript search_results (.str "results")
    let item ← pySubscript lst (.num (mkRat ((i : Int) - 1) 1))
    let u ← pySubscript item (.str "url")
    let tail ← selectByIndices search_results is
    .ok (u :: tail)

/-- The robots filter of line 252. -/
def filterFetchable (can_fetch : String → Bool) : List PyVal → Except PyErr (List PyVal)
  | [] => .ok []
  | v :: vs => do
    let b ← canFetchPy can_fetch v
    let tail ← filterFetchable can_fetch vs
    .ok (if b then v :: tail else tail)

/-- The fallback of line 260: the first two robots-allowed `result['url']`
values, iterating the parameter directly (here it IS treated as a list). -/
def selectFallback (can_fetch : String → Bool) (search_results : PyVal) :
    Except PyErr (List PyVal) := do
  let items ← pyIterate search_results
  let urls ← collect items
  .ok (urls.take 2)
where
  collect : List PyVal → Except PyErr (List PyVal)
    | [] => .ok []
    | r :: rs => do
      let u ← pySubscript r (.str "url")
      let b ← canFetchPy can_fetch u
      let tail ← collect rs
      .ok (if b then u :: tail else tail)

/-- The retry loop of lines 242-257: up to three generation calls; a
non-empty robots-allowed selection is returned, otherwise the selection is
retried and finally the fallback runs. -/
def selectRetry (search_results : PyVal) (llmResp : Nat → Except PyErr String)
    (can_fetch : String → Bool) : Nat → Nat → Except PyErr (List PyVal)
  | 0, _ => selectFallback can_fetch search_results
  | n + 1, retry => do
    let resp ← llmResp retry
    let selected ← selectByIndices search_results (parsedDigits resp)
    let allowed ← filterFetchable can_fetch selected
    if allowed ≠ [] then .ok allowed
    else selectRetry search_results llmResp can_fetch n (retry + 1)

/-- `select_relevant_pages(search_results, user_query)` (lines 228-261):
build the prompt — whose `format_results` interpolation already subscripts
the parameter with `'results'` — then run the retry loop; the prompt text
itself is consumed only by the generation oracle. -/
def select_relevant_pages (search_results : PyVal) (userQuery : String)
    (llmResp : Nat → Except PyErr String) (can_fetch : String → Bool) :
    Except PyErr (List PyVal) := do
  let fmt ← format_results search_results
  let _prompt := "Given the following search results for the user's question: \"" ++
    userQuery ++ "\"\n" ++ "Search Results:\n" ++ fmt
  selectRetry search_results llmResp can_fetch 3 0

/-- The four-result list the caller passes (`search_results['results']`). -/
def resultsList4W : PyVal :=
  .list [.dict [("url", .str "u1")], .dict [("url", .str "u2")],
         .dict [("url", .str "u3")], .dict [("url", .str "u4")]]

/-- C4, evaluated at the claim's own input: with a results list of length 4
and the response "Selected Results: [2, 4] Reasoning: ...", the call does
not return the URLs of results[1] and results[3] — it raises `TypeError`
while interpolating `format_results` into the prompt, because the function
subscripts its list parameter with the string `'results'` (contradicting
its own `List[Dict]` annotation and its line-260 fallback).  Moreover,
even on a payload shaped so the subscript succeeds, out-of-range digits are
not discarded: digit 9 raises `IndexError`, and digit 0 wraps to the LAST
result through Python's negative indexing. -/
theorem claim_C4_select_raises :
    select_relevant_pages resultsList4W "q"
      (fun _ => .ok "Selected Results: [2, 4] Reasoning: relevant")
      (fun _ => true) = .error .typeError ∧
    select_relevant_pages (.dict [("results", resultsList4W)]) "q"
      (fun _ => .ok "Selected Results: [2, 9] Reasoning: relevant")
      (fun _ => true) = .error .indexError ∧
    select_relevant_pages (.dict [("results", resultsList4W)]) "q"
      (fun _ => .ok "Selected Results: [0, 2] Reasoning: relevant")
      (fun _ => true) = .ok [.str "u4", .str "u2"] :=
  ⟨by decide, by decide, by decide⟩
